import Mathlib

/-!
Verification of the Universal Modal System (`assets/modal.js`).

The JavaScript `ModalManager` class keeps a `Map` of modal configurations,
two web-storage partitions (session and local), the page scroll lock, and
one-shot `setTimeout` auto-close timers.  We embed that state as `MState`
below; each method of the class becomes a pure function on `MState`
(threading an `Env` for the ambient browser quantities it reads:
`window.innerWidth`, `Date.now()`, `new Date().toDateString()`, and the
milliseconds elapsed since January 1 of the current year).  Methods that
dispatch DOM `CustomEvent`s additionally return the list of events emitted.
-/

/-! JavaScript string and number helpers

The program stores natural numbers in web storage via
`Number.prototype.toString` and reads them back with `parseInt`.  We model
decimal printing and parsing directly so that the round trip is provable.
-/

/-- The decimal digit character for `d < 10`. -/
def digitChar (d : Nat) : Char :=
  if d = 0 then '0' else if d = 1 then '1' else if d = 2 then '2'
  else if d = 3 then '3' else if d = 4 then '4' else if d = 5 then '5'
  else if d = 6 then '6' else if d = 7 then '7' else if d = 8 then '8'
  else '9'

/-- The value of a decimal digit character, `none` on a non-digit. -/
def charDigit? (c : Char) : Option Nat :=
  if c = '0' then some 0 else if c = '1' then some 1 else if c = '2' then some 2
  else if c = '3' then some 3 else if c = '4' then some 4 else if c = '5' then some 5
  else if c = '6' then some 6 else if c = '7' then some 7 else if c = '8' then some 8
  else if c = '9' then some 9 else none

/-- Decimal digits of `n`, least significant first, with explicit fuel
(`fuel = n` always suffices). -/
def natDigitsRev (fuel : Nat) (n : Nat) : List Nat :=
  match fuel with
  | 0 => []
  | fuel + 1 => if n = 0 then [] else n % 10 :: natDigitsRev fuel (n / 10)

/-- Embeds `Number.prototype.toString` (radix 10) on the natural numbers
this program stores. -/
def jsNatToString (n : Nat) : String :=
  if n = 0 then "0" else ⟨(natDigitsRev n n).reverse.map digitChar⟩

/-- Consume further decimal digits, accumulating most-significant-first;
stops at the first non-digit (as `parseInt` does). -/
def parseIntGo : List Char → Nat → Nat
  | [], acc => acc
  | c :: cs, acc =>
    match charDigit? c with
    | some d => parseIntGo cs (acc * 10 + d)
    | none => acc

/-- Embeds `parseInt(s)` (radix 10) on the non-negative digit strings this
program stores: `none` models `NaN` (first character not a digit),
otherwise the value of the longest leading digit run. -/
def jsParseInt? (s : String) : Option Nat :=
  match s.data with
  | [] => none
  | c :: cs =>
    match charDigit? c with
    | some d => some (parseIntGo cs d)
    | none => none

/-- Embeds `parseInt(x) || 0` applied to a nullable storage read:
`null` and `NaN` (and a parsed `0`) all collapse to `0`. -/
def jsParseIntOr0 (v : Option String) : Nat :=
  match v with
  | none => 0
  | some s => (jsParseInt? s).getD 0

/-- Embeds JavaScript truthiness of a nullable string
(`null` and `""` are falsy, every other string is truthy). -/
def jsTruthy (v : Option String) : Bool :=
  match v with
  | none => false
  | some s => !(s == "")

/-- Embeds `String.prototype.startsWith`. -/
def strStartsWith (s pat : String) : Bool :=
  pat.data.isPrefixOf s.data

/-! Association-list maps

Both web `Storage` objects (unique string keys, insertion order preserved,
`setItem` overwrites in place) and the `Map` of modal configurations are
embedded as association lists. -/

/-- Embeds `storage.getItem(k)` / `Map.get(k)`. -/
def getAssoc {α : Type} : List (String × α) → String → Option α
  | [], _ => none
  | e :: es, k => if e.1 == k then some e.2 else getAssoc es k

/-- Embeds `storage.setItem(k, v)` / `Map.set(k, v)`: overwrite in place, else append. -/
def setAssoc {α : Type} : List (String × α) → String → α → List (String × α)
  | [], k, v => [(k, v)]
  | e :: es, k, v => if e.1 == k then (k, v) :: es else e :: setAssoc es k v

/-- Embeds `storage.removeItem(k)` / `Map.delete(k)` (keys are unique in a
`Storage` object, so dropping every occurrence is the same operation). -/
def removeAssoc {α : Type} : List (String × α) → String → List (String × α)
  | [], _ => []
  | e :: es, k => if e.1 == k then removeAssoc es k else e :: removeAssoc es k

/-! Data model -/

/-- The per-modal configuration object built by `parseModalConfig`.  The JS
object also carries the mutable display state (`isShown`, `lastShown`),
which the class mutates in place; we keep those fields here and model
mutation as overwriting the map entry. -/
structure ModalConfig where
  triggerType : String
  triggerValue : String
  frequency : String
  delay : Nat
  mobileEnabled : Bool
  desktopEnabled : Bool
  closeOnOutsideClick : Bool
  autoCloseAfter : Nat
  devMode : Bool
  isShown : Bool
  lastShown : Option Nat
deriving DecidableEq, Repr

/-- Ambient browser quantities read by the class. -/
structure Env where
  /-- Embeds `window.innerWidth`. -/
  innerWidth : Nat
  /-- Embeds `Date.now()`, in milliseconds. -/
  nowMs : Nat
  /-- Embeds `new Date().toDateString()`, an opaque calendar-day string. -/
  todayKey : String
  /-- Embeds `now - new Date(now.getFullYear(), 0, 1)`: milliseconds elapsed since
  January 1 of the current year (used by `getWeekNumber`). -/
  yearDiffMs : Nat
deriving DecidableEq, Repr

/-- The mutable state of a `ModalManager` instance plus the browser state
it owns: the configuration map, both storage partitions, the page scroll
lock (`document.body.style.overflow`), and the pending one-shot auto-close
timers `(deadlineMs, modalId)` armed by `setupModalEvents`. -/
structure MState where
  modals : List (String × ModalConfig)
  sessionStore : List (String × String)
  localStore : List (String × String)
  bodyOverflow : String
  autoTimers : List (Nat × String)
deriving DecidableEq, Repr

/-- Document-level `CustomEvent`s dispatched by the class. -/
inductive MEvent where
  | shown (modalId : String)
  | closed (modalId : String)
deriving DecidableEq, Repr

/-- Embeds `this.storage.prefix + modalId`: the storage key stem for a modal. -/
def modalKey (modalId : String) : String := "modal_" ++ modalId

/-! Operations -/

/-- Embeds `isDeviceCompatible`: mobile iff `innerWidth <= 768`. -/
def isDeviceCompatible (env : Env) (cfg : ModalConfig) : Bool :=
  if env.innerWidth ≤ 768 then cfg.mobileEnabled else cfg.desktopEnabled

/-- The week-number arithmetic of `getWeekNumber`:
`Math.ceil(diff / (7 * 24 * 60 * 60 * 1000))` on the non-negative integer
millisecond difference `diff`. -/
def weekNumberOfDiff (diffMs : Nat) : Nat :=
  (diffMs + 7 * 24 * 60 * 60 * 1000 - 1) / (7 * 24 * 60 * 60 * 1000)

/-- Embeds `getWeekNumber()`: week number of the current date, counted from
January 1 of the current year. -/
def getWeekNumber (env : Env) : Nat :=
  weekNumberOfDiff env.yearDiffMs

/-- The `switch (frequency)` body of `canShowModal` (reached when the dev
override did not fire). -/
def canShowFreq (st : MState) (env : Env) (modalId frequency : String) : Bool :=
  let key := modalKey modalId
  if frequency == "always" then
    true
  else if frequency == "once-per-session" then
    !(jsTruthy (getAssoc st.sessionStore (key ++ "_session")))
  else if frequency == "once-per-day" then
    !(getAssoc st.localStore (key ++ "_day") == some env.todayKey)
  else if frequency == "once-per-week" then
    !(jsParseIntOr0 (getAssoc st.localStore (key ++ "_week")) == getWeekNumber env)
  else
    true

/-- Embeds `canShowModal(modalId, frequency)`: dev override (read from the
registry, not from the argument), then the frequency switch. -/
def canShowModal (st : MState) (env : Env) (modalId frequency : String) : Bool :=
  match getAssoc st.modals modalId with
  | some cfg => if cfg.devMode then true else canShowFreq st env modalId frequency
  | none => canShowFreq st env modalId frequency

/-- Embeds `trackModalDisplay(modalId, frequency)`: skipped entirely in dev mode;
otherwise writes the record for the given frequency kind (no write for
`always` or unknown kinds). -/
def trackModalDisplay (st : MState) (env : Env) (modalId frequency : String) : MState :=
  let devHit :=
    match getAssoc st.modals modalId with
    | some cfg => cfg.devMode
    | none => false
  if devHit then st
  else
    let key := modalKey modalId
    if frequency == "once-per-session" then
      { st with sessionStore :=
          setAssoc st.sessionStore (key ++ "_session") (jsNatToString env.nowMs) }
    else if frequency == "once-per-day" then
      { st with localStore := setAssoc st.localStore (key ++ "_day") env.todayKey }
    else if frequency == "once-per-week" then
      { st with localStore :=
          setAssoc st.localStore (key ++ "_week") (jsNatToString (getWeekNumber env)) }
    else st

/-- Embeds `showModal(modalId)`: no-op on an unknown id; otherwise sets
`isShown := true` and `lastShown := now`, tracks the display, locks page
scroll, and dispatches `modal:shown`.  (It does NOT check `isShown`.) -/
def showModal (st : MState) (env : Env) (modalId : String) : MState × List MEvent :=
  match getAssoc st.modals modalId with
  | none => (st, [])
  | some cfg =>
    let cfg' := { cfg with isShown := true, lastShown := some env.nowMs }
    let st1 := { st with modals := setAssoc st.modals modalId cfg' }
    let st2 := trackModalDisplay st1 env modalId cfg'.frequency
    ({ st2 with bodyOverflow := "hidden" }, [MEvent.shown modalId])

/-- Embeds `closeModal(modalId)`: no-op on an unknown id, a modal that is not
shown, or a dev-mode modal; otherwise sets `isShown := false`, restores
page scroll, and dispatches `modal:closed`. -/
def closeModal (st : MState) (modalId : String) : MState × List MEvent :=
  match getAssoc st.modals modalId with
  | none => (st, [])
  | some cfg =>
    if !cfg.isShown then (st, [])
    else if cfg.devMode then (st, [])
    else
      ({ st with modals := setAssoc st.modals modalId { cfg with isShown := false },
                 bodyOverflow := "" },
       [MEvent.closed modalId])

/-- Embeds `triggerModal(modalId)`: aborts on an unknown id, an already shown
modal, or a failing fire-time gating check; otherwise shows the modal. -/
def triggerModal (st : MState) (env : Env) (modalId : String) : MState × List MEvent :=
  match getAssoc st.modals modalId with
  | none => (st, [])
  | some cfg =>
    if cfg.isShown then (st, [])
    else if !(canShowModal st env modalId cfg.frequency) then (st, [])
    else showModal st env modalId

/-- The timer-arming clause of `setupModalEvents`: when
`autoCloseAfter > 0 && !devMode`, a one-shot `setTimeout` for
`autoCloseAfter` seconds is armed at the time `setupModalEvents` runs
(i.e. at registration time). -/
def setupModalEvents (st : MState) (env : Env) (modalId : String) : MState :=
  match getAssoc st.modals modalId with
  | none => st
  | some cfg =>
    if cfg.autoCloseAfter > 0 && !cfg.devMode then
      { st with autoTimers :=
          st.autoTimers ++ [(env.nowMs + cfg.autoCloseAfter * 1000, modalId)] }
    else st

/-- Embeds `registerModal(modalId, config, element)`: skip when the device check
fails, skip when the registration-time frequency check fails, otherwise
store the config and wire events (which arms the auto-close timer). -/
def registerModal (st : MState) (env : Env) (modalId : String) (config : ModalConfig) :
    MState :=
  if !(isDeviceCompatible env config) then st
  else if !(canShowModal st env modalId config.frequency) then st
  else
    let st1 := { st with modals := setAssoc st.modals modalId config }
    setupModalEvents st1 env modalId

/-- The browser firing the earliest pending auto-close timeout: the
runtime consumes the one-shot timer and runs the callback
`if (config.isShown) closeModal(modalId)`. -/
def runDueTimer (st : MState) : MState × List MEvent :=
  match st.autoTimers with
  | [] => (st, [])
  | (_, modalId) :: rest =>
    let st' := { st with autoTimers := rest }
    match getAssoc st'.modals modalId with
    | none => (st', [])
    | some cfg => if cfg.isShown then closeModal st' modalId else (st', [])

/-- Public API `show(modalId)`: delegates directly to `showModal`. -/
def showCmd (st : MState) (env : Env) (modalId : String) : MState × List MEvent :=
  showModal st env modalId

/-- Public API `hide(modalId)`: delegates directly to `closeModal`. -/
def hideCmd (st : MState) (modalId : String) : MState × List MEvent :=
  closeModal st modalId

/-- Embeds `ModalManager.forceClose(modalId)`: like `closeModal` but without the
dev-mode block. -/
def forceClose (st : MState) (modalId : String) : MState × List MEvent :=
  match getAssoc st.modals modalId with
  | none => (st, [])
  | some cfg =>
    if !cfg.isShown then (st, [])
    else
      ({ st with modals := setAssoc st.modals modalId { cfg with isShown := false },
                 bodyOverflow := "" },
       [MEvent.closed modalId])

/-- Embeds `resetFrequency(modalId)`: removes the session, day and week records
for the id. -/
def resetFrequency (st : MState) (modalId : String) : MState :=
  let key := modalKey modalId
  { st with
    sessionStore := removeAssoc st.sessionStore (key ++ "_session"),
    localStore :=
      removeAssoc (removeAssoc st.localStore (key ++ "_day")) (key ++ "_week") }

/-- The body of the cleanup loop condition
`value && parseInt(value) < oneWeekAgo`: a falsy value is skipped, and a
`NaN` comparison is false. -/
def cleanupHit (v : String) (oneWeekAgo : Int) : Bool :=
  if v == "" then false
  else
    match jsParseInt? v with
    | some n => decide ((n : Int) < oneWeekAgo)
    | none => false

/-- The index loop of `cleanupOldData`
(`for (let i = 0; i < storage.length; i++)` with `removeItem` inside):
the loop re-reads the live length each iteration and always increments
`i`, so removal shifts the following entries down by one.  The fuel equals
the initial length, which bounds the number of iterations. -/
def cleanupFrom (oneWeekAgo : Int) :
    Nat → Nat → List (String × String) → List (String × String)
  | 0, _, store => store
  | fuel + 1, i, store =>
    if h : i < store.length then
      let e := store.get ⟨i, h⟩
      if strStartsWith e.1 "modal_" && cleanupHit e.2 oneWeekAgo then
        cleanupFrom oneWeekAgo fuel (i + 1) (removeAssoc store e.1)
      else
        cleanupFrom oneWeekAgo fuel (i + 1) store
    else store

/-- Embeds `cleanupOldData()`: sweep the session partition for keys with the
modal stem whose stored timestamp is older than one week. -/
def cleanupOldData (st : MState) (env : Env) : MState :=
  let oneWeekAgo : Int := (env.nowMs : Int) - (7 * 24 * 60 * 60 * 1000 : Int)
  { st with sessionStore := cleanupFrom oneWeekAgo st.sessionStore.length 0 st.sessionStore }

/-! Abbreviations for states arising inside the operations

These name the intermediate values built by `showModal` and friends, so
theorem statements can refer to them without repeating record syntax. -/

/-- The in-place mutation `config.isShown = true; config.lastShown = now`
performed by `showModal`. -/
def cfgShown (cfg : ModalConfig) (now : Nat) : ModalConfig :=
  { cfg with isShown := true, lastShown := some now }

/-- The in-place mutation `config.isShown = false` performed by
`closeModal` and `forceClose`. -/
def cfgHidden (cfg : ModalConfig) : ModalConfig :=
  { cfg with isShown := false }

/-- Storing a configuration in the registry map. -/
def stWithModal (st : MState) (modalId : String) (c : ModalConfig) : MState :=
  { st with modals := setAssoc st.modals modalId c }

/-- Setting `document.body.style.overflow`. -/
def setOverflow (st : MState) (v : String) : MState :=
  { st with bodyOverflow := v }

/-! Concrete inputs used by the witnesses and counterexamples -/

/-- A baseline configuration (manual trigger, session frequency, no dev
mode, not shown). -/
def cfgBase : ModalConfig :=
  { triggerType := "manual", triggerValue := "", frequency := "once-per-session",
    delay := 0, mobileEnabled := true, desktopEnabled := true,
    closeOnOutsideClick := true, autoCloseAfter := 0, devMode := false,
    isShown := false, lastShown := none }

/-- A fixed desktop browser environment. -/
def envW : Env :=
  { innerWidth := 1024, nowMs := 5, todayKey := "Sat Oct 11 2025", yearDiffMs := 1 }

/-- A visible dev-mode modal (C5 witness input). -/
def stDevVisible : MState :=
  { modals := [("m", { cfgBase with devMode := true, isShown := true })],
    sessionStore := [], localStore := [], bodyOverflow := "hidden", autoTimers := [] }

/-- A registered, non-dev modal with empty stores (C1 witness input). -/
def stC1 : MState :=
  { modals := [("m", cfgBase)], sessionStore := [], localStore := [],
    bodyOverflow := "", autoTimers := [] }

/-- The empty manager state. -/
def stEmpty : MState :=
  { modals := [], sessionStore := [], localStore := [], bodyOverflow := "",
    autoTimers := [] }

/-- A registered modal that is already visible (C3 counterexample input). -/
def stC3 : MState :=
  { modals := [("m", { cfgBase with isShown := true })], sessionStore := [],
    localStore := [], bodyOverflow := "", autoTimers := [] }

/-- A registered non-dev modal with a pre-existing session record
(C7 counterexample input). -/
def stC7 : MState :=
  { modals := [("m", cfgBase)], sessionStore := [("modal_m_session", "1")],
    localStore := [], bodyOverflow := "", autoTimers := [] }

/-- A dev-mode configuration with mobile display disabled
(C2 counterexample input). -/
def cfgDevMobileOff : ModalConfig :=
  { cfgBase with devMode := true, mobileEnabled := false }

/-- A dev-mode configuration (C2 counterexample input). -/
def cfgDev : ModalConfig := { cfgBase with devMode := true }

/-- A mobile-width environment (C2 counterexample input). -/
def envMobile : Env :=
  { innerWidth := 500, nowMs := 5, todayKey := "Sat Oct 11 2025", yearDiffMs := 1 }

/-- An unregistered id with an existing session record
(C2 counterexample input). -/
def stWithRecord : MState :=
  { stEmpty with sessionStore := [("modal_m_session", "1")] }

/-- A five-second auto-close configuration (C4 counterexample input). -/
def cfgAuto : ModalConfig :=
  { cfgBase with frequency := "always", autoCloseAfter := 5 }

/-- The environment at registration time t = 0 (C4 counterexample). -/
def envT0 : Env :=
  { innerWidth := 1024, nowMs := 0, todayKey := "d", yearDiffMs := 1 }

/-- The environment at show time t = 10000 ms (C4 counterexample). -/
def envT10 : Env := { envT0 with nowMs := 10000 }

/-- C4 counterexample trace: register at t = 0 (arms the 5 s timer). -/
def c4St1 : MState := registerModal stEmpty envT0 "m" cfgAuto

/-- C4 counterexample trace: the timer fires at t = 5000 while the modal
is not shown. -/
def c4St2 : MState := (runDueTimer c4St1).1

/-- C4 counterexample trace: the modal is shown at t0 = 10000. -/
def c4St3 : MState := (showCmd c4St2 envT10 "m").1

/-- A session store with two adjacent expired records (C9 failing input). -/
def c9State : MState :=
  { modals := [], sessionStore := [("modal_a", "0"), ("modal_b", "0")],
    localStore := [], bodyOverflow := "", autoTimers := [] }

/-- An environment one millisecond past the seven-day horizon of the two
records in `c9State` (C9 failing input). -/
def c9Env : Env :=
  { innerWidth := 1024, nowMs := 604800001, todayKey := "d", yearDiffMs := 0 }

/-! Basic lemmas about the map and string helpers -/

theorem getAssoc_setAssoc_self {α : Type} (l : List (String × α)) (k : String) (v : α) :
    getAssoc (setAssoc l k v) k = some v := by
  induction l with
  | nil => simp [getAssoc, setAssoc]
  | cons e es ih =>
    by_cases h : e.1 = k
    · simp [getAssoc, setAssoc, h]
    · simp only [setAssoc, beq_eq_false_iff_ne.mpr h, if_neg]
      simpa [getAssoc, h] using ih

theorem getAssoc_setAssoc_ne {α : Type} (l : List (String × α)) (k k' : String) (v : α)
    (h : k ≠ k') : getAssoc (setAssoc l k v) k' = getAssoc l k' := by
  induction l with
  | nil => simp [getAssoc, setAssoc, h]
  | cons e es ih =>
    by_cases he : e.1 = k
    · simp [getAssoc, setAssoc, he, h]
    · simp only [setAssoc, beq_eq_false_iff_ne.mpr he, if_neg]
      by_cases he' : e.1 = k'
      · simp [getAssoc, he']
      · simpa [getAssoc, he'] using ih

theorem getAssoc_removeAssoc_self {α : Type} (l : List (String × α)) (k : String) :
    getAssoc (removeAssoc l k) k = none := by
  induction l with
  | nil => simp [getAssoc, removeAssoc]
  | cons e es ih =>
    by_cases h : e.1 = k
    · simpa [removeAssoc, h] using ih
    · simp only [removeAssoc, beq_eq_false_iff_ne.mpr h, if_neg]
      simpa [getAssoc, h] using ih

theorem getAssoc_removeAssoc_ne {α : Type} (l : List (String × α)) (k k' : String)
    (h : k ≠ k') : getAssoc (removeAssoc l k) k' = getAssoc l k' := by
  induction l with
  | nil => simp [getAssoc, removeAssoc]
  | cons e es ih =>
    by_cases he : e.1 = k
    · have hne : ¬(e.1 = k') := by rw [he]; exact h
      simp only [removeAssoc, he, beq_self_eq_true, if_pos]
      simpa [getAssoc, hne] using ih
    · simp only [removeAssoc, beq_eq_false_iff_ne.mpr he, if_neg]
      by_cases he' : e.1 = k'
      · simp [getAssoc, he']
      · simpa [getAssoc, he'] using ih

theorem strApp_right_inj (s a b : String) (h : s ++ a = s ++ b) : a = b := by
  have hd : s.data ++ a.data = s.data ++ b.data := by
    have h2 := congrArg String.data h
    simpa [String.data_append] using h2
  have h3 : a.data = b.data := List.append_cancel_left hd
  cases a
  cases b
  exact congrArg String.mk h3

theorem strApp_right_ne (s : String) {a b : String} (h : a ≠ b) : s ++ a ≠ s ++ b :=
  fun he => h (strApp_right_inj s a b he)

/-! Round trip of the decimal printer and parser -/

theorem charDigit?_digitChar {d : Nat} (h : d < 10) :
    charDigit? (digitChar d) = some d := by
  interval_cases d <;> rfl

theorem natDigitsRev_lt_base (fuel n : Nat) : ∀ d ∈ natDigitsRev fuel n, d < 10 := by
  induction fuel generalizing n with
  | zero => intro d hd; simp [natDigitsRev] at hd
  | succ fuel ih =>
    intro d hd
    by_cases h : n = 0
    · simp [natDigitsRev, h] at hd
    · simp only [natDigitsRev, if_neg h, List.mem_cons] at hd
      rcases hd with h1 | h2
      · subst h1
        exact Nat.mod_lt _ (by norm_num)
      · exact ih (n / 10) d h2

theorem parseIntGo_map (L : List Nat) (h : ∀ d ∈ L, d < 10) :
    ∀ acc, parseIntGo (L.map digitChar) acc = L.foldl (fun a d => a * 10 + d) acc := by
  induction L with
  | nil => intro acc; rfl
  | cons d ds ih =>
    intro acc
    have hd : d < 10 := h d (List.mem_cons_self d ds)
    have hds : ∀ x ∈ ds, x < 10 := fun x hx => h x (List.mem_cons_of_mem d hx)
    simp only [List.map_cons, parseIntGo, charDigit?_digitChar hd, List.foldl_cons]
    exact ih hds (acc * 10 + d)

theorem foldr_natDigitsRev (fuel : Nat) :
    ∀ n, n ≤ fuel → (natDigitsRev fuel n).foldr (fun d a => a * 10 + d) 0 = n := by
  induction fuel with
  | zero => intro n hn; interval_cases n; rfl
  | succ fuel ih =>
    intro n hn
    by_cases h : n = 0
    · simp [natDigitsRev, h]
    · have hdiv : n / 10 ≤ fuel := by
        have : n / 10 < n := Nat.div_lt_self (Nat.pos_of_ne_zero h) (by norm_num)
        omega
      simp only [natDigitsRev, if_neg h, List.foldr_cons, ih (n / 10) hdiv]
      omega

theorem natDigitsRev_ne_nil {n : Nat} (h : n ≠ 0) : natDigitsRev n n ≠ [] := by
  cases n with
  | zero => exact absurd rfl h
  | succ m => simp [natDigitsRev]

theorem jsParseInt?_jsNatToString (n : Nat) :
    jsParseInt? (jsNatToString n) = some n := by
  by_cases h : n = 0
  · subst h; rfl
  · have hlt : ∀ d ∈ (natDigitsRev n n).reverse, d < 10 := by
      intro d hd
      exact natDigitsRev_lt_base n n d (List.mem_reverse.mp hd)
    have hne : (natDigitsRev n n).reverse ≠ [] := by
      simpa using natDigitsRev_ne_nil h
    rcases hL : (natDigitsRev n n).reverse with _ | ⟨d, rest⟩
    · exact absurd hL hne
    · have hd0 : d < 10 := hlt d (by rw [hL]; exact List.mem_cons_self d rest)
      have hrest : ∀ x ∈ rest, x < 10 := by
        intro x hx
        exact hlt x (by rw [hL]; exact List.mem_cons_of_mem d hx)
      have hdata : (jsNatToString n).data = digitChar d :: rest.map digitChar := by
        simp [jsNatToString, if_neg h, hL]
      simp only [jsParseInt?, hdata, charDigit?_digitChar hd0, Option.some.injEq]
      have hfold := parseIntGo_map rest hrest d
      rw [hfold]
      have : rest.foldl (fun a x => a * 10 + x) d
          = (d :: rest).foldl (fun a x => a * 10 + x) 0 := by
        simp
      rw [this, ← hL, List.foldl_reverse]
      exact foldr_natDigitsRev n n le_rfl

theorem jsNatToString_ne_empty (n : Nat) : jsNatToString n ≠ "" := by
  by_cases h : n = 0
  · subst h; decide
  · intro he
    have hdata := congrArg String.data he
    simp only [jsNatToString, if_neg h] at hdata
    have : (natDigitsRev n n).reverse.map digitChar = [] := hdata
    simp only [List.map_eq_nil_iff, List.reverse_eq_nil_iff] at this
    exact natDigitsRev_ne_nil h this

theorem jsParseIntOr0_jsNatToString (n : Nat) :
    jsParseIntOr0 (some (jsNatToString n)) = n := by
  simp [jsParseIntOr0, jsParseInt?_jsNatToString]

theorem jsTruthy_jsNatToString (n : Nat) :
    jsTruthy (some (jsNatToString n)) = true := by
  simp [jsTruthy, jsNatToString_ne_empty n]

/-! Structural lemmas about the operations -/

theorem trackModalDisplay_modals (st : MState) (env : Env) (modalId frequency : String) :
    (trackModalDisplay st env modalId frequency).modals = st.modals := by
  unfold trackModalDisplay
  cases getAssoc st.modals modalId
  all_goals dsimp only
  all_goals (repeat' split)
  all_goals rfl

theorem setupModalEvents_modals (st : MState) (env : Env) (modalId : String) :
    (setupModalEvents st env modalId).modals = st.modals := by
  unfold setupModalEvents
  cases getAssoc st.modals modalId
  all_goals dsimp only
  all_goals (repeat' split)
  all_goals rfl

theorem canShowModal_eq_freq (st : MState) (env : Env) (modalId kind : String)
    (cfg : ModalConfig) (hreg : getAssoc st.modals modalId = some cfg)
    (hdev : cfg.devMode = false) :
    canShowModal st env modalId kind = canShowFreq st env modalId kind := by
  simp [canShowModal, hreg, hdev]

theorem canShowFreq_only_stores (st st' : MState) (env : Env) (modalId k : String)
    (h1 : st.sessionStore = st'.sessionStore) (h2 : st.localStore = st'.localStore) :
    canShowFreq st env modalId k = canShowFreq st' env modalId k := by
  unfold canShowFreq
  rw [h1, h2]

theorem key_session_ne_day (modalId : String) :
    modalKey modalId ++ "_session" ≠ modalKey modalId ++ "_day" :=
  strApp_right_ne _ (by decide)

theorem key_day_ne_week (modalId : String) :
    modalKey modalId ++ "_day" ≠ modalKey modalId ++ "_week" :=
  strApp_right_ne _ (by decide)

theorem key_week_ne_day (modalId : String) :
    modalKey modalId ++ "_week" ≠ modalKey modalId ++ "_day" :=
  strApp_right_ne _ (by decide)

/-! Week-number arithmetic -/

theorem weekNumberOfDiff_le_iff (d k : Nat) :
    weekNumberOfDiff d ≤ k ↔ d ≤ k * (7 * 24 * 60 * 60 * 1000) := by
  unfold weekNumberOfDiff
  rw [Nat.div_le_iff_le_mul_add_pred (by norm_num)]
  omega

/-- C8: for every date, the week number used by the weekly frequency check
equals the ceiling of the milliseconds elapsed since January 1 of the
current year divided by one week of milliseconds — equivalently, the
day-count approximation `ceil(days-since-Jan-1 / 7)` with week 1 beginning
January 1 (not ISO-8601 numbering). -/
theorem c8_week_number_is_ceiling (env : Env) :
    getWeekNumber env
        = ⌈(env.yearDiffMs : ℚ) / ((7 : ℚ) * 24 * 60 * 60 * 1000)⌉₊ ∧
    getWeekNumber env
        = ⌈(env.yearDiffMs : ℚ) / ((24 : ℚ) * 60 * 60 * 1000) / 7⌉₊ := by
  set d := env.yearDiffMs with hd
  have hW : (0 : ℚ) < (7 : ℚ) * 24 * 60 * 60 * 1000 := by norm_num
  have h1 : getWeekNumber env = ⌈(d : ℚ) / ((7 : ℚ) * 24 * 60 * 60 * 1000)⌉₊ := by
    apply le_antisymm
    · apply (weekNumberOfDiff_le_iff d _).2
      have hle := Nat.le_ceil ((d : ℚ) / ((7 : ℚ) * 24 * 60 * 60 * 1000))
      have h2 := (div_le_iff₀ hW).1 hle
      have h3 : (d : ℚ) ≤ (⌈(d : ℚ) / ((7 : ℚ) * 24 * 60 * 60 * 1000)⌉₊ : ℚ)
          * ((7 : ℚ) * 24 * 60 * 60 * 1000) := h2
      exact_mod_cast h3
    · apply Nat.ceil_le.2
      rw [div_le_iff₀ hW]
      have h2 := (weekNumberOfDiff_le_iff d (weekNumberOfDiff d)).1 le_rfl
      exact_mod_cast h2
  refine ⟨h1, ?_⟩
  rw [div_div]
  norm_num at h1 ⊢
  exact h1

/-! C10: gating fails open on unknown frequency kinds -/

/-- C10: for every modal id and every frequency string outside the four
known kinds, `canShowModal` returns true (gating fails open, so a
misconfigured frequency never blocks a modal). -/
theorem c10_unknown_frequency_fails_open (st : MState) (env : Env) (modalId freq : String)
    (h1 : freq ≠ "always") (h2 : freq ≠ "once-per-session")
    (h3 : freq ≠ "once-per-day") (h4 : freq ≠ "once-per-week") :
    canShowModal st env modalId freq = true := by
  have hfreq : canShowFreq st env modalId freq = true := by
    simp [canShowFreq, beq_eq_false_iff_ne.mpr h1, beq_eq_false_iff_ne.mpr h2,
      beq_eq_false_iff_ne.mpr h3, beq_eq_false_iff_ne.mpr h4]
  cases hc : getAssoc st.modals modalId with
  | none => simp [canShowModal, hc, hfreq]
  | some cfg => cases hdev : cfg.devMode <;> simp [canShowModal, hc, hdev, hfreq]

theorem c10_witness :
    canShowModal ⟨[], [], [], "", []⟩ ⟨1024, 5, "Sat Oct 11 2025", 1⟩ "m" "weekly" = true :=
  c10_unknown_frequency_fails_open _ _ _ _ (by decide) (by decide) (by decide) (by decide)

/-! C5: dev mode blocks close but not forceClose -/

/-- C5: for every registered modal with `devMode = true` that is currently
visible, `close` (and the public `hide`) is a no-op that changes nothing,
while `forceClose` in the same state hides the modal, restores page
scroll, and emits a `modal:closed` event. -/
theorem c5_devmode_close_blocked (st : MState) (modalId : String) (cfg : ModalConfig)
    (hreg : getAssoc st.modals modalId = some cfg)
    (hdev : cfg.devMode = true) (hvis : cfg.isShown = true) :
    closeModal st modalId = (st, []) ∧
    hideCmd st modalId = (st, []) ∧
    getAssoc (forceClose st modalId).1.modals modalId = some { cfg with isShown := false } ∧
    (forceClose st modalId).1.bodyOverflow = "" ∧
    (forceClose st modalId).2 = [MEvent.closed modalId] := by
  have hclose : closeModal st modalId = (st, []) := by
    simp [closeModal, hreg, hvis, hdev]
  have hforce : forceClose st modalId
      = ({ st with modals := setAssoc st.modals modalId { cfg with isShown := false },
                   bodyOverflow := "" },
         [MEvent.closed modalId]) := by
    simp [forceClose, hreg, hvis]
  refine ⟨hclose, hclose, ?_, ?_, ?_⟩
  · rw [hforce]
    exact getAssoc_setAssoc_self _ _ _
  · rw [hforce]
  · rw [hforce]

theorem c5_witness :
    closeModal stDevVisible "m" = (stDevVisible, []) ∧
    hideCmd stDevVisible "m" = (stDevVisible, []) ∧
    getAssoc (forceClose stDevVisible "m").1.modals "m"
      = some { cfgBase with devMode := true, isShown := false } ∧
    (forceClose stDevVisible "m").1.bodyOverflow = "" ∧
    (forceClose stDevVisible "m").2 = [MEvent.closed "m"] :=
  c5_devmode_close_blocked stDevVisible "m" { cfgBase with devMode := true, isShown := true }
    (by decide) (by decide) (by decide)

/-! C6: trigger firing shows the modal iff all gates pass -/

/-- C6: a trigger firing (`triggerModal(id)`) makes the modal visible if
and only if the id is registered, the modal is not already shown, and the
fire-time `canShowModal` check passes at that moment; in every other case
it leaves all state unchanged and emits nothing (the embedding is a total
function, so it never throws). -/
theorem c6_trigger_fire_characterization (st : MState) (env : Env) (modalId : String) :
    ((∃ cfg, getAssoc st.modals modalId = some cfg ∧ cfg.isShown = false ∧
        canShowModal st env modalId cfg.frequency = true) →
      (getAssoc (triggerModal st env modalId).1.modals modalId).map
          (fun c => c.isShown) = some true ∧
      (triggerModal st env modalId).2 = [MEvent.shown modalId]) ∧
    ((∀ cfg, getAssoc st.modals modalId = some cfg →
        cfg.isShown = true ∨ canShowModal st env modalId cfg.frequency = false) →
      triggerModal st env modalId = (st, [])) := by
  constructor
  · rintro ⟨cfg, hreg, hshown, hcan⟩
    have htrig : triggerModal st env modalId = showModal st env modalId := by
      simp [triggerModal, hreg, hshown, hcan]
    rw [htrig]
    constructor
    · have h1 : (showModal st env modalId).1.modals
          = setAssoc st.modals modalId
              { cfg with isShown := true, lastShown := some env.nowMs } := by
        simp only [showModal, hreg]
        exact trackModalDisplay_modals _ _ _ _
      rw [h1, getAssoc_setAssoc_self]
      rfl
    · simp [showModal, hreg]
  · intro h
    cases hreg : getAssoc st.modals modalId with
    | none => simp [triggerModal, hreg]
    | some cfg =>
      rcases h cfg hreg with hs | hc
      · simp [triggerModal, hreg, hs]
      · by_cases hs : cfg.isShown
        · simp [triggerModal, hreg, hs]
        · simp [triggerModal, hreg, hs, hc]

theorem c6_witness :
    triggerModal ⟨[], [], [], "", []⟩ envW "ghost" = (⟨[], [], [], "", []⟩, []) :=
  (c6_trigger_fire_characterization ⟨[], [], [], "", []⟩ envW "ghost").2
    (fun _ h => Option.noConfusion h)


/-! C1: a successful show blocks the next same-window check -/

theorem canShowFreq_false_after_track (st : MState) (env : Env) (modalId : String)
    (cfg : ModalConfig) (hreg : getAssoc st.modals modalId = some cfg)
    (hdev : cfg.devMode = false) (kind : String)
    (hkind : kind = "once-per-session" ∨ kind = "once-per-day" ∨ kind = "once-per-week") :
    canShowFreq (trackModalDisplay st env modalId kind) env modalId kind = false := by
  rcases hkind with hk | hk | hk <;> subst hk
  · simp [trackModalDisplay, hreg, hdev, canShowFreq, getAssoc_setAssoc_self,
      jsTruthy_jsNatToString]
  · simp [trackModalDisplay, hreg, hdev, canShowFreq, getAssoc_setAssoc_self]
  · simp [trackModalDisplay, hreg, hdev, canShowFreq, getAssoc_setAssoc_self,
      jsParseIntOr0_jsNatToString]

theorem showModal_eq_of_reg (st : MState) (env : Env) (modalId : String)
    (cfg : ModalConfig) (hreg : getAssoc st.modals modalId = some cfg) :
    showModal st env modalId
      = (setOverflow
          (trackModalDisplay (stWithModal st modalId (cfgShown cfg env.nowMs))
            env modalId cfg.frequency)
          "hidden",
         [MEvent.shown modalId]) := by
  simp only [showModal, hreg]
  rfl

/-- C1: after a successful `show` of a registered modal with
`devMode = false` under a kind in {once-per-session, once-per-day,
once-per-week}, a `canShowModal` check for the same id and kind within the
same scope window (same session store, same day string, same week number —
i.e. the same `Env`) returns false; and for a registered modal with
`devMode = true`, `canShowModal` returns true for every kind regardless of
stored history. -/
theorem c1_frequency_gating (st : MState) (env : Env) (modalId : String) (cfg : ModalConfig)
    (hreg : getAssoc st.modals modalId = some cfg) :
    (cfg.devMode = false →
      (cfg.frequency = "once-per-session" ∨ cfg.frequency = "once-per-day" ∨
        cfg.frequency = "once-per-week") →
      canShowModal (showModal st env modalId).1 env modalId cfg.frequency = false) ∧
    (cfg.devMode = true → ∀ kind, canShowModal st env modalId kind = true) := by
  constructor
  · intro hdev hkind
    have hS : (showModal st env modalId).1
        = setOverflow
            (trackModalDisplay (stWithModal st modalId (cfgShown cfg env.nowMs))
              env modalId cfg.frequency)
            "hidden" := by
      rw [showModal_eq_of_reg st env modalId cfg hreg]
    rw [hS]
    have hreg1 : getAssoc (stWithModal st modalId (cfgShown cfg env.nowMs)).modals modalId
        = some (cfgShown cfg env.nowMs) :=
      getAssoc_setAssoc_self _ _ _
    have hdev1 : (cfgShown cfg env.nowMs).devMode = false := hdev
    have hregB : getAssoc (setOverflow
          (trackModalDisplay (stWithModal st modalId (cfgShown cfg env.nowMs))
            env modalId cfg.frequency)
          "hidden").modals modalId
        = some (cfgShown cfg env.nowMs) := by
      show getAssoc (trackModalDisplay (stWithModal st modalId (cfgShown cfg env.nowMs))
          env modalId cfg.frequency).modals modalId
        = some (cfgShown cfg env.nowMs)
      rw [trackModalDisplay_modals]
      exact hreg1
    rw [canShowModal_eq_freq _ env modalId cfg.frequency _ hregB hdev1]
    rw [canShowFreq_only_stores
        (setOverflow
          (trackModalDisplay (stWithModal st modalId (cfgShown cfg env.nowMs))
            env modalId cfg.frequency)
          "hidden")
        (trackModalDisplay (stWithModal st modalId (cfgShown cfg env.nowMs))
          env modalId cfg.frequency)
        env modalId cfg.frequency rfl rfl]
    exact canShowFreq_false_after_track _ env modalId _ hreg1 hdev1 cfg.frequency hkind
  · intro hdev kind
    simp [canShowModal, hreg, hdev]

theorem c1_witness :
    canShowModal (showModal stC1 envW "m").1 envW "m" "once-per-session" = false :=
  (c1_frequency_gating stC1 envW "m" cfgBase (by decide)).1 rfl (Or.inl rfl)

/-! C7: resetFrequency restores the no-record gating result -/

theorem canShowFreq_ext (st st' : MState) (env : Env) (modalId kind : String)
    (h1 : getAssoc st.sessionStore (modalKey modalId ++ "_session")
        = getAssoc st'.sessionStore (modalKey modalId ++ "_session"))
    (h2 : getAssoc st.localStore (modalKey modalId ++ "_day")
        = getAssoc st'.localStore (modalKey modalId ++ "_day"))
    (h3 : getAssoc st.localStore (modalKey modalId ++ "_week")
        = getAssoc st'.localStore (modalKey modalId ++ "_week")) :
    canShowFreq st env modalId kind = canShowFreq st' env modalId kind := by
  simp only [canShowFreq]
  rw [h1, h2, h3]

/-- C7 (amended): for a registered modal with `devMode = false` and no
pre-existing frequency records for its id, performing `show(id)` and then
`resetFrequency(id)` restores `canShowModal(id, kind)` to its pre-show
value for every kind.  (In general the reset restores the no-record gating
result, which coincides with the pre-show value exactly when no record
existed before the show.) -/
theorem c7_reset_roundtrip_no_prior_records (st : MState) (env : Env) (modalId : String)
    (cfg : ModalConfig) (hreg : getAssoc st.modals modalId = some cfg)
    (hdev : cfg.devMode = false)
    (hs : getAssoc st.sessionStore (modalKey modalId ++ "_session") = none)
    (hd : getAssoc st.localStore (modalKey modalId ++ "_day") = none)
    (hw : getAssoc st.localStore (modalKey modalId ++ "_week") = none) :
    ∀ kind,
      canShowModal (resetFrequency (showModal st env modalId).1 modalId) env modalId kind
        = canShowModal st env modalId kind := by
  intro kind
  have hS : (showModal st env modalId).1
      = setOverflow
          (trackModalDisplay (stWithModal st modalId (cfgShown cfg env.nowMs))
            env modalId cfg.frequency)
          "hidden" := by
    rw [showModal_eq_of_reg st env modalId cfg hreg]
  rw [hS]
  have hregR : getAssoc (resetFrequency (setOverflow
        (trackModalDisplay (stWithModal st modalId (cfgShown cfg env.nowMs))
          env modalId cfg.frequency)
        "hidden") modalId).modals modalId
      = some (cfgShown cfg env.nowMs) := by
    show getAssoc (trackModalDisplay (stWithModal st modalId (cfgShown cfg env.nowMs))
        env modalId cfg.frequency).modals modalId = _
    rw [trackModalDisplay_modals]
    exact getAssoc_setAssoc_self _ _ _
  rw [canShowModal_eq_freq _ env modalId kind _ hregR hdev]
  rw [canShowModal_eq_freq _ env modalId kind _ hreg hdev]
  apply canShowFreq_ext
  · rw [hs]
    show getAssoc (removeAssoc _ (modalKey modalId ++ "_session"))
        (modalKey modalId ++ "_session") = none
    exact getAssoc_removeAssoc_self _ _
  · rw [hd]
    show getAssoc (removeAssoc (removeAssoc _ (modalKey modalId ++ "_day"))
        (modalKey modalId ++ "_week")) (modalKey modalId ++ "_day") = none
    rw [getAssoc_removeAssoc_ne _ _ _ (key_week_ne_day modalId)]
    exact getAssoc_removeAssoc_self _ _
  · rw [hw]
    show getAssoc (removeAssoc (removeAssoc _ (modalKey modalId ++ "_day"))
        (modalKey modalId ++ "_week")) (modalKey modalId ++ "_week") = none
    exact getAssoc_removeAssoc_self _ _

theorem c7_witness :
    canShowModal (resetFrequency (showModal stC1 envW "m").1 "m") envW "m" "once-per-day"
      = canShowModal stC1 envW "m" "once-per-day" :=
  c7_reset_roundtrip_no_prior_records stC1 envW "m" cfgBase (by decide) rfl rfl rfl rfl
    "once-per-day"

/-- C7 counterexample: with a pre-existing session record the pre-show
gating result is `false`, but after `show` then `resetFrequency` the check
returns `true` — the reset does not round-trip the arbitrary pre-show
value. -/
theorem c7_counterexample :
    canShowModal stC7 envW "m" "once-per-session" = false ∧
    canShowModal (resetFrequency (showModal stC7 envW "m").1 "m") envW "m"
      "once-per-session" = true := by
  exact ⟨by decide, by decide⟩

/-! C2: registration-time gating does not honour the dev override -/

/-- C2 (amended): for a fresh id, registration stores the modal if and
only if the device check passes and the pre-registration `canShowModal`
check passes.  `devMode` on the incoming configuration is not consulted:
the dev branch of `canShowModal` reads the registry, where the modal is
not yet present, so an existing frequency record (or an incompatible
device) skips registration even when `devMode = true`. -/
theorem c2_registration_gating (st : MState) (env : Env) (modalId : String)
    (config : ModalConfig) (hfresh : getAssoc st.modals modalId = none) :
    getAssoc (registerModal st env modalId config).modals modalId = some config
      ↔ (isDeviceCompatible env config = true ∧
         canShowModal st env modalId config.frequency = true) := by
  cases hb : isDeviceCompatible env config with
  | false =>
    have hr : registerModal st env modalId config = st := by
      simp [registerModal, hb]
    rw [hr, hfresh]
    simp [hb]
  | true =>
    cases hc : canShowModal st env modalId config.frequency with
    | false =>
      have hr : registerModal st env modalId config = st := by
        simp [registerModal, hb, hc]
      rw [hr, hfresh]
      simp [hc]
    | true =>
      have hr : registerModal st env modalId config
          = setupModalEvents (stWithModal st modalId config) env modalId := by
        simp [registerModal, hb, hc, stWithModal]
      rw [hr]
      have hm : (setupModalEvents (stWithModal st modalId config) env modalId).modals
          = (stWithModal st modalId config).modals :=
        setupModalEvents_modals _ _ _
      rw [hm]
      simp [stWithModal, getAssoc_setAssoc_self]

theorem c2_witness :
    getAssoc (registerModal stEmpty envW "m" cfgBase).modals "m" = some cfgBase :=
  (c2_registration_gating stEmpty envW "m" cfgBase rfl).2 ⟨rfl, rfl⟩

/-- C2 counterexample: a `devMode = true` configuration is skipped at
registration both by the device check (mobile viewport with
`mobileEnabled = false`) and by the frequency check (an existing session
record for the id), so registration-time gating is not unconditional for
dev-mode modals. -/
theorem c2_counterexample :
    cfgDevMobileOff.devMode = true ∧
    registerModal stEmpty envMobile "m" cfgDevMobileOff = stEmpty ∧
    cfgDev.devMode = true ∧
    registerModal stWithRecord envW "m" cfgDev = stWithRecord := by
  exact ⟨rfl, by decide, rfl, by decide⟩

/-! C3: public show is a no-op only for unknown ids -/

/-- C3 (amended): the public `show(id)` is a no-op only when no
configuration is registered for the id.  When the modal is already
visible, `show(id)` re-runs the full show path: it re-emits `modal:shown`
and overwrites the display state (`lastShown`), rather than being a
no-op. -/
theorem c3_show_noop_only_when_unknown (st : MState) (env : Env) (modalId : String) :
    (getAssoc st.modals modalId = none → showCmd st env modalId = (st, [])) ∧
    (∀ cfg, getAssoc st.modals modalId = some cfg → cfg.isShown = true →
      (showCmd st env modalId).2 = [MEvent.shown modalId] ∧
      getAssoc (showCmd st env modalId).1.modals modalId
        = some (cfgShown cfg env.nowMs)) := by
  constructor
  · intro h
    simp [showCmd, showModal, h]
  · intro cfg hreg _
    have hS : showCmd st env modalId
        = (setOverflow
            (trackModalDisplay (stWithModal st modalId (cfgShown cfg env.nowMs))
              env modalId cfg.frequency)
            "hidden",
           [MEvent.shown modalId]) := by
      simp only [showCmd]
      exact showModal_eq_of_reg st env modalId cfg hreg
    rw [hS]
    refine ⟨rfl, ?_⟩
    show getAssoc (trackModalDisplay (stWithModal st modalId (cfgShown cfg env.nowMs))
        env modalId cfg.frequency).modals modalId = _
    rw [trackModalDisplay_modals]
    exact getAssoc_setAssoc_self _ _ _

theorem c3_witness :
    showCmd stEmpty envW "nobody" = (stEmpty, []) :=
  (c3_show_noop_only_when_unknown stEmpty envW "nobody").1 rfl

/-- C3 counterexample: on a registered modal that is already visible, the
public `show` emits another `modal:shown` event, writes a session
frequency record, and changes the state — it is not a no-op. -/
theorem c3_counterexample :
    (showCmd stC3 envW "m").2 = [MEvent.shown "m"] ∧
    getAssoc (showCmd stC3 envW "m").1.sessionStore "modal_m_session" = some "5" ∧
    (showCmd stC3 envW "m").1 ≠ stC3 := by
  exact ⟨by decide, by decide, by decide⟩

/-! C4: the auto-close timer is armed at registration, not at show -/

/-- C4 (amended): the auto-close timer is armed at registration time (not
by `show`): a successful registration appends a one-shot timer for
`registration time + autoCloseAfter seconds` exactly when
`autoCloseAfter > 0` and `devMode = false`.  When that timer fires, the
modal is closed only if it is visible at that moment (and not in dev
mode); if it is not yet visible the firing consumes the timer and does
nothing, so a modal shown after the timer has fired is never auto-closed.
Dev-mode modals never arm the timer. -/
theorem c4_autoclose_armed_at_registration (st : MState) (env : Env) (modalId : String)
    (cfg : ModalConfig) :
    (isDeviceCompatible env cfg = true →
      canShowModal st env modalId cfg.frequency = true →
      (registerModal st env modalId cfg).autoTimers
        = st.autoTimers ++
          (if cfg.autoCloseAfter > 0 ∧ cfg.devMode = false
           then [(env.nowMs + cfg.autoCloseAfter * 1000, modalId)] else [])) ∧
    (∀ t rest, st.autoTimers = (t, modalId) :: rest →
      getAssoc st.modals modalId = some cfg →
      (cfg.isShown = true → cfg.devMode = false →
        (runDueTimer st).1.autoTimers = rest ∧
        (getAssoc (runDueTimer st).1.modals modalId).map (fun c => c.isShown)
          = some false ∧
        (runDueTimer st).1.bodyOverflow = "" ∧
        (runDueTimer st).2 = [MEvent.closed modalId]) ∧
      (cfg.isShown = false →
        runDueTimer st = ({ st with autoTimers := rest }, []))) := by
  constructor
  · intro hb hc
    have hr : registerModal st env modalId cfg
        = setupModalEvents (stWithModal st modalId cfg) env modalId := by
      simp [registerModal, hb, hc, stWithModal]
    rw [hr]
    have hget : getAssoc (setAssoc st.modals modalId cfg) modalId = some cfg :=
      getAssoc_setAssoc_self _ _ _
    by_cases h1 : cfg.autoCloseAfter > 0
    · cases hdm : cfg.devMode with
      | false => simp [setupModalEvents, stWithModal, hget, h1, hdm]
      | true => simp [setupModalEvents, stWithModal, hget, h1, hdm]
    · simp [setupModalEvents, stWithModal, hget, h1]
  · intro t rest hat hreg
    have hrun : runDueTimer st
        = (let st' : MState := { st with autoTimers := rest }
           if cfg.isShown then closeModal st' modalId else (st', [])) := by
      simp only [runDueTimer, hat]
      have hget : getAssoc ({ st with autoTimers := rest } : MState).modals modalId
          = some cfg := hreg
      rw [hget]
    constructor
    · intro hs hdev
      rw [hrun]
      refine ⟨?_, ?_, ?_, ?_⟩ <;>
        simp [closeModal, hreg, hs, hdev, getAssoc_setAssoc_self]
    · intro hs
      rw [hrun]
      simp [hs]

theorem c4_witness :
    (registerModal stEmpty envT0 "m" cfgAuto).autoTimers = [(5000, "m")] := by
  have h := (c4_autoclose_armed_at_registration stEmpty envT0 "m" cfgAuto).1 rfl rfl
  simpa using h

/-- C4 counterexample: a modal registered at t = 0 with
`autoCloseAfterSeconds = 5` arms its only auto-close timer at
registration.  The timer fires at t = 5000 while the modal is not shown
and does nothing; the modal is then shown at t0 = 10000 and remains
visible with no pending timer, so it is not hidden by t0 + 5 s — the
`show` transition did not arm any auto-close timer. -/
theorem c4_counterexample :
    c4St1.autoTimers = [(5000, "m")] ∧
    (runDueTimer c4St1).2 = [] ∧
    (getAssoc c4St3.modals "m").map (fun c => c.isShown) = some true ∧
    c4St3.autoTimers = [] := by
  exact ⟨by decide, by decide, by decide, by decide⟩

/-! C9: the cleanup pass skips the record after each removal -/

/-- C9: evaluation of `cleanupOldData` at the failing input.  The session
store holds two adjacent expired records with the modal stem; the forward
index loop removes the first, which shifts the second down to the index
the loop has already passed, so the second expired record survives the
pass (contradicting the claim that no expired record remains).  The other
two conjuncts confirm that the surviving record is stem-matched and
expired under the very threshold the pass used. -/
theorem c9_cleanup_leaves_adjacent_expired :
    (cleanupOldData c9State c9Env).sessionStore = [("modal_b", "0")] ∧
    strStartsWith "modal_b" "modal_" = true ∧
    cleanupHit "0" ((c9Env.nowMs : Int) - 7 * 24 * 60 * 60 * 1000) = true := by
  exact ⟨by decide, by decide, by decide⟩
